import Mathlib

/-!
Verification of the epoch-level training orchestrator of `src/training/train.py`
(LRNet training script).

The script is embedded shallowly:

* Rational numbers stand in for Python floats; all comparisons and sums in the
  script are order/field operations, so `ℚ` is an exact model of the decision
  logic.
* The external collaborators (the recurrent model, the optimizer, `torch.log`,
  and the `evaluate` routine from `utils/metric`, which is not part of the
  sources under verification) are parameters of the embedding, bundled in
  `LoopCfg`: the loop is verified for every instantiation of these parameters.
* Side effects are made explicit: `torch.save` calls are recorded as the list
  of epochs at which a save happened, the per-batch instrument trace records
  the order of forward / log / loss / zero_grad / backward / step /
  accumulate operations, and the `ZeroDivisionError` that Python raises on
  `loss_sum / samples_sum` with `samples_sum == 0` becomes an explicit error
  field that stops the run (keeping the effects performed before the raise).
-/

/-- Training/evaluation mode flag of a torch module
(set by `model.train()` and `model.eval()`). -/
inductive Mode
  | train
  | eval
deriving DecidableEq

/-- Errors the embedded script can signal.  `zeroDivision` is the Python
`ZeroDivisionError` raised by `loss_sum / samples_sum` when `samples_sum == 0`
(train.py line 50).  `configurationError` is the error class named by the
specification; it exists in the vocabulary so that statements can compare the
error actually raised against it, but no code path produces it. -/
inductive PyErr
  | zeroDivision
  | configurationError
deriving DecidableEq

/-- Instrumentation events of one training batch step
(train.py lines 28 to 38). -/
inductive Ev
  | forward
  | logOp
  | nllLoss
  | zeroGrad
  | backward
  | optStep
  | accumulate
deriving DecidableEq

/-- One mini-batch `(X, y)` from the training iterator: a list of per-sample
inputs (so `X.shape[0]` is `x.length`) and the integer class labels. -/
structure Batch (X : Type) where
  x : List X
  y : List ℕ
deriving DecidableEq

/-- Index of the first maximum of a list, auxiliary recursion. -/
def argmaxAux : List ℚ → ℕ → ℕ → ℚ → ℕ
  | [], _, bi, _ => bi
  | a :: as, i, bi, bv =>
    if bv < a then argmaxAux as (i + 1) i a else argmaxAux as (i + 1) bi bv

/-- Index of the first maximum of a list of scores (torch `argmax` over the
class dimension); `0` on the empty list. -/
def argmax : List ℚ → ℕ
  | [] => 0
  | a :: as => argmaxAux as 1 0 a

/-- Number of samples whose argmax prediction equals the label. -/
def countCorrect (output : List (List ℚ)) (y : List ℕ) : ℕ :=
  ((output.zip y).filter fun p => decide (argmax p.1 = p.2)).length

/-- Modelled from the spec: `calculate_accuracy` lives in `utils/metric`,
which is not among the sources; spec section 4.1 accumulates
`correct_sum += count(argmax(prediction) == label)` through a batch-mean
accuracy weighted by the batch size, so `calculate_accuracy(output, y)` is the
fraction of samples whose argmax prediction equals the label. -/
def calculate_accuracy (output : List (List ℚ)) (y : List ℕ) : ℚ :=
  (countCorrect output y : ℚ) / (output.length : ℚ)

/-- `nn.NLLLoss` with its default mean reduction applied to log-probabilities:
the negated mean over the batch of the log-probability at the target class
(train.py line 30, `loss(log_softmax_output, y)`). -/
def nllLossMean (logProbs : List (List ℚ)) (labels : List ℕ) : ℚ :=
  -(((logProbs.zip labels).map (fun p => p.1.getD p.2 0)).sum /
    ((((logProbs.zip labels).map (fun p => p.1.getD p.2 0)).length : ℕ) : ℚ))

/-- Configuration of one `train_loop` call: the external collaborators and the
arguments of train.py line 11.  `forward` is the model applied to one sample,
`backwardStep` is the combined effect of `optimizer.zero_grad()`,
`l.backward()` and `optimizer.step()` on the parameters given the loss,
`qlog` is the numeric function `torch.log`, `trainIter e` is the training
batch stream served for epoch `e` (the loader may reshuffle between epochs),
and `evalAcc` is the test accuracy returned by `evaluate` from `utils/metric`
for a given parameter state. -/
structure LoopCfg (P X : Type) where
  forward : P → X → List ℚ
  backwardStep : P → ℚ → P
  qlog : ℚ → ℚ
  trainIter : ℕ → List (Batch X)
  evalAcc : P → ℚ
  p0 : P
  epochs : ℕ

/-- The class-probability outputs of the model on one batch
(`output = model(X)`, train.py line 28). -/
def batchOutput {P X : Type} (c : LoopCfg P X) (p : P) (b : Batch X) : List (List ℚ) :=
  b.x.map (c.forward p)

/-- The loss the script backpropagates for one batch: the elementwise
logarithm of the output fed to the negative-log-likelihood loss
(train.py lines 29 and 30). -/
def appliedLoss {P X : Type} (c : LoopCfg P X) (p : P) (b : Batch X) : ℚ :=
  nllLossMean ((batchOutput c p b).map (List.map c.qlog)) b.y

/-- Accumulator state threaded through one epoch's training pass: the model
parameters plus the running sums of train.py line 20, along with the
instrumentation trace and the model mode observed at each batch. -/
structure BAcc (P : Type) where
  params : P
  loss_sum : ℚ
  acc_sum : ℚ
  samples_sum : ℕ
  events : List Ev
  batchModes : List Mode
deriving DecidableEq

/-- The fixed event block of one training batch, in the order of
train.py lines 28 to 38. -/
def batchEvs : List Ev :=
  [Ev.forward, Ev.logOp, Ev.nllLoss, Ev.zeroGrad, Ev.backward, Ev.optStep, Ev.accumulate]

/-- One iteration of the inner `for X, y in train_iter` loop
(train.py lines 21 to 38): forward pass, elementwise log, NLL loss, one
`zero_grad`/`backward`/`step`, then the weighted metric accumulation
`loss_sum += l.item() * samples_num`,
`acc_sum += calculate_accuracy(output, y) * samples_num`,
`samples_sum += samples_num`. -/
def batchStep {P X : Type} (c : LoopCfg P X) (mode : Mode) (a : BAcc P) (b : Batch X) : BAcc P :=
  { params := c.backwardStep a.params (appliedLoss c a.params b)
    loss_sum := a.loss_sum + appliedLoss c a.params b * (b.x.length : ℚ)
    acc_sum := a.acc_sum + calculate_accuracy (batchOutput c a.params b) b.y * (b.x.length : ℚ)
    samples_sum := a.samples_sum + b.x.length
    events := a.events ++ batchEvs
    batchModes := a.batchModes ++ [mode] }

/-- State of one `train_loop` call between epochs: the three per-epoch log
lists of train.py lines 12 to 14, the best score of line 15, the model
parameters and mode, the recorded `torch.save` epochs, the instrumentation
traces, and the pending error (if a raise has aborted the run). -/
structure St (P : Type) where
  params : P
  mode : Mode
  best : ℚ
  log_training_loss : List ℚ
  log_training_accuracy : List ℚ
  log_testing_accuracy : List ℚ
  saves : List ℕ
  events : List Ev
  batchModes : List Mode
  err : Option PyErr
deriving DecidableEq

/-- The checkpoint decision of train.py line 42: `test_acc >= best_test_acc`. -/
def should_save (current best : ℚ) : Bool :=
  decide (best ≤ current)

/-- One epoch's full pass over the training stream (the inner loop of
train.py lines 20 to 38), starting from fresh zero sums. -/
def runTrainPass {P X : Type} (c : LoopCfg P X) (epoch : ℕ) (s : St P) : BAcc P :=
  (c.trainIter epoch).foldl (batchStep c s.mode)
    { params := s.params, loss_sum := 0, acc_sum := 0, samples_sum := 0
      events := s.events, batchModes := s.batchModes }

/-- The test accuracy of one epoch: `evaluate(model, test_iter, device)`
applied to the parameters produced by that epoch's training pass
(train.py line 40). -/
def epochTestAcc {P X : Type} (c : LoopCfg P X) (epoch : ℕ) (s : St P) : ℚ :=
  c.evalAcc (runTrainPass c epoch s).params

/-- One iteration of the epoch loop, train.py lines 19 to 55: run the training
pass, evaluate (modelled from the spec: `evaluate` in `utils/metric` is not
among the sources, and spec section 4.3 step 2 places the model in evaluation
mode, so the resulting mode is `Mode.eval`), decide and perform the
checkpoint save of lines 42 to 47, then format and append the per-epoch
means.  When `samples_sum = 0` the mean `loss_sum / samples_sum` of line 50
raises `ZeroDivisionError`: the save already performed is kept, the log lists
are not extended, and the error marks the state as aborted. -/
def epochStep {P X : Type} (c : LoopCfg P X) (epoch : ℕ) (s : St P) : St P :=
  if (runTrainPass c epoch s).samples_sum = 0 then
    { s with
      params := (runTrainPass c epoch s).params
      mode := Mode.eval
      best := if should_save (epochTestAcc c epoch s) s.best then epochTestAcc c epoch s else s.best
      saves := if should_save (epochTestAcc c epoch s) s.best then s.saves ++ [epoch] else s.saves
      events := (runTrainPass c epoch s).events
      batchModes := (runTrainPass c epoch s).batchModes
      err := some PyErr.zeroDivision }
  else
    { params := (runTrainPass c epoch s).params
      mode := Mode.eval
      best := if should_save (epochTestAcc c epoch s) s.best then epochTestAcc c epoch s else s.best
      saves := if should_save (epochTestAcc c epoch s) s.best then s.saves ++ [epoch] else s.saves
      events := (runTrainPass c epoch s).events
      batchModes := (runTrainPass c epoch s).batchModes
      log_training_loss := s.log_training_loss ++
        [(runTrainPass c epoch s).loss_sum / ((runTrainPass c epoch s).samples_sum : ℚ)]
      log_training_accuracy := s.log_training_accuracy ++
        [(runTrainPass c epoch s).acc_sum / ((runTrainPass c epoch s).samples_sum : ℚ)]
      log_testing_accuracy := s.log_testing_accuracy ++ [epochTestAcc c epoch s]
      err := s.err }

/-- The epoch loop `for epoch in trange(1, epochs + 1)` of train.py line 19:
runs `n` further epochs starting at epoch number `e`; an uncaught error stops
the loop at the epoch that raised it. -/
def runEpochs {P X : Type} (c : LoopCfg P X) : ℕ → ℕ → St P → St P
  | 0, _, s => s
  | n + 1, e, s =>
    if (epochStep c e s).err = none then runEpochs c n (e + 1) (epochStep c e s)
    else epochStep c e s

/-- Initial state of a `train_loop` call: empty logs (lines 12 to 14), best
score sentinel `0.0` (line 15), training mode (`model.train()`, line 18),
no saves, no error. -/
def initSt {P X : Type} (c : LoopCfg P X) : St P :=
  { params := c.p0, mode := Mode.train, best := 0
    log_training_loss := [], log_training_accuracy := [], log_testing_accuracy := []
    saves := [], events := [], batchModes := [], err := none }

/-- `train_loop` of train.py lines 11 to 58. -/
def train_loop {P X : Type} (c : LoopCfg P X) : St P :=
  runEpochs c c.epochs 1 (initSt c)

/-- Whether and which error a `train_loop` run raises, computed directly from
the per-epoch training-stream sizes: the run aborts with `ZeroDivisionError`
at the first of the `n` scheduled epochs (starting at epoch `e`) whose
training stream carries zero samples. -/
def errOf {P X : Type} (c : LoopCfg P X) : ℕ → ℕ → Option PyErr
  | 0, _ => none
  | n + 1, e =>
    if ((c.trainIter e).map fun b => b.x.length).sum = 0 then some PyErr.zeroDivision
    else errOf c n (e + 1)

/-- Epoch budget `EPOCHS_g1 = 400` of train.py line 73. -/
def EPOCHS_g1 : ℕ := 400

/-- Epoch budget `EPOCHS_g2 = 300` of train.py line 74. -/
def EPOCHS_g2 : ℕ := 300

/-- Observable outcome of one `main` call (train.py lines 61 to 143): which
branch models were constructed (`LRNet(...)` on lines 131 and 139, in
execution order), the final `train_loop` state of each branch that ran, and
the error the call propagated (`none` for a normal return, including the
early `return` of line 124 on an unknown branch selection). -/
structure MainResult (P Q : Type) where
  modelsConstructed : List String
  g1res : Option (St P)
  g2res : Option (St Q)
  raised : Option PyErr
deriving DecidableEq

/-- The function `main` of train.py lines 61 to 143 (renamed, since Lean reserves the name `main` for executables), restricted to its observable control
flow: branch dispatch on `branch_selection` (lines 110 to 124) and the
training blocks (lines 129 to 143).  The dataset, logger and device setup are
pure collaborator calls without bearing on these observables.  Each branch's
model, optimizer and loss are constructed fresh inside its block, so each
`train_loop` call starts from its own `LoopCfg` with the branch's epoch
budget; an uncaught error from the g1 block aborts `main` before the g2 block
runs.  An unknown branch selection prints a message and returns normally,
constructing no model and training nothing. -/
def mainTrain {P X Q Y : Type} (c1 : LoopCfg P X) (c2 : LoopCfg Q Y) (branch : String) :
    MainResult P Q :=
  if branch = "g1" then
    { modelsConstructed := ["g1"]
      g1res := some (train_loop { c1 with epochs := EPOCHS_g1 })
      g2res := none
      raised := (train_loop { c1 with epochs := EPOCHS_g1 }).err }
  else if branch = "g2" then
    { modelsConstructed := ["g2"]
      g1res := none
      g2res := some (train_loop { c2 with epochs := EPOCHS_g2 })
      raised := (train_loop { c2 with epochs := EPOCHS_g2 }).err }
  else if branch = "all" then
    if (train_loop { c1 with epochs := EPOCHS_g1 }).err = none then
      { modelsConstructed := ["g1", "g2"]
        g1res := some (train_loop { c1 with epochs := EPOCHS_g1 })
        g2res := some (train_loop { c2 with epochs := EPOCHS_g2 })
        raised := (train_loop { c2 with epochs := EPOCHS_g2 }).err }
    else
      { modelsConstructed := ["g1"]
        g1res := some (train_loop { c1 with epochs := EPOCHS_g1 })
        g2res := none
        raised := (train_loop { c1 with epochs := EPOCHS_g1 }).err }
  else
    { modelsConstructed := [], g1res := none, g2res := none, raised := none }

/-- One sample as seen by the metric accumulation of train.py lines 36 to 38:
its per-class prediction scores, its label, and its individual loss
contribution (the batch loss `l.item()` is the mean of these, matching the
mean reduction of `nn.NLLLoss`). -/
structure Sample where
  pred : List ℚ
  label : ℕ
  lossv : ℚ
deriving DecidableEq

/-- The loss value reported for a batch: the mean of the per-sample losses
(the value `l.item()` of train.py line 36 under the mean reduction of
`nn.NLLLoss`); `0` for an empty batch. -/
def batchLossMean (b : List Sample) : ℚ :=
  (b.map Sample.lossv).sum / (b.length : ℚ)

/-- Number of correctly classified samples of a batch. -/
def batchCorrect (b : List Sample) : ℕ :=
  (b.filter fun s => decide (argmax s.pred = s.label)).length

/-- The batch accuracy `calculate_accuracy(output, y)` at sample granularity:
fraction of samples whose argmax prediction equals the label. -/
def batchAccuracy (b : List Sample) : ℚ :=
  (batchCorrect b : ℚ) / (b.length : ℚ)

/-- The running sums of the metric accumulation, train.py line 20:
`loss_sum, acc_sum, samples_sum = 0.0, 0.0, 0`. -/
structure MAcc where
  loss_sum : ℚ
  acc_sum : ℚ
  samples_sum : ℕ
deriving DecidableEq

/-- Metric accumulation of one batch, train.py lines 36 to 38:
`loss_sum += l.item() * samples_num`,
`acc_sum += calculate_accuracy(output, y) * samples_num`,
`samples_sum += samples_num`, at sample granularity. -/
def accumBatch (a : MAcc) (b : List Sample) : MAcc :=
  { loss_sum := a.loss_sum + batchLossMean b * (b.length : ℚ)
    acc_sum := a.acc_sum + batchAccuracy b * (b.length : ℚ)
    samples_sum := a.samples_sum + b.length }

/-- Per-epoch means produced from the running sums, train.py lines 50, 53
and 54: `(loss_sum / samples_sum, acc_sum / samples_sum)`. -/
def finalize (a : MAcc) : ℚ × ℚ :=
  (a.loss_sum / (a.samples_sum : ℚ), a.acc_sum / (a.samples_sum : ℚ))

/-- The event trace of `n` training batches: the seven-event block of
train.py lines 28 to 38, once per batch. -/
def repeatEvs : ℕ → List Ev
  | 0 => []
  | n + 1 => batchEvs ++ repeatEvs n

/-- The successive parameter states seen by the batches of one training pass:
the parameters before batch `i`, for each batch in iterator order
(each step applies the backpropagated loss of train.py lines 30 to 33). -/
def paramsTrace {P X : Type} (c : LoopCfg P X) : P → List (Batch X) → List P
  | _, [] => []
  | p, b :: bs => p :: paramsTrace c (c.backwardStep p (appliedLoss c p b)) bs

/-- Concrete loop configuration: trivial one-class model, identity optimizer
step and logarithm, an empty training stream every epoch, test accuracy 1,
one scheduled epoch. -/
def cfgEmptyStream : LoopCfg Unit Unit :=
  { forward := fun _ _ => [1], backwardStep := fun p _ => p, qlog := fun q => q
    trainIter := fun _ => [], evalAcc := fun _ => 1, p0 := (), epochs := 1 }

/-- Concrete loop configuration: trivial model, one single-sample batch per
epoch, test accuracy 1, two scheduled epochs. -/
def cfgTwoEpochs : LoopCfg Unit Unit :=
  { forward := fun _ _ => [1], backwardStep := fun p _ => p, qlog := fun q => q
    trainIter := fun _ => [{ x := [()], y := [0] }], evalAcc := fun _ => 1
    p0 := (), epochs := 2 }

/-- Concrete loop configuration: trivial model, one single-sample batch per
epoch, test accuracy 1, two scheduled epochs (instance reserved for the
log-length claim). -/
def cfgLogLen : LoopCfg Unit Unit :=
  { forward := fun _ _ => [1], backwardStep := fun p _ => p, qlog := fun q => q
    trainIter := fun _ => [{ x := [()], y := [0] }], evalAcc := fun _ => 1
    p0 := (), epochs := 2 }

/-- Concrete loop configuration with a zero epoch budget. -/
def cfgZeroEpochs : LoopCfg Unit Unit :=
  { forward := fun _ _ => [1], backwardStep := fun p _ => p, qlog := fun q => q
    trainIter := fun _ => [{ x := [()], y := [0] }], evalAcc := fun _ => 1
    p0 := (), epochs := 0 }

/-- Concrete loop configuration: one single-sample batch per epoch, test
accuracy 1, one scheduled epoch (instance reserved for the best-score
claim). -/
def cfgBest : LoopCfg Unit Unit :=
  { forward := fun _ _ => [1], backwardStep := fun p _ => p, qlog := fun q => q
    trainIter := fun _ => [{ x := [()], y := [0] }], evalAcc := fun _ => 1
    p0 := (), epochs := 1 }

/-- Concrete loop configuration (instance reserved for the checkpoint-policy
claim): one single-sample batch per epoch, test accuracy 1. -/
def cfgPolicy : LoopCfg Unit Unit :=
  { forward := fun _ _ => [1], backwardStep := fun p _ => p, qlog := fun q => q
    trainIter := fun _ => [{ x := [()], y := [0] }], evalAcc := fun _ => 1
    p0 := (), epochs := 1 }

/-- Concrete loop configuration (instance reserved for the first-epoch-save
claim): one single-sample batch per epoch, test accuracy 1, one epoch. -/
def cfgFirstSave : LoopCfg Unit Unit :=
  { forward := fun _ _ => [1], backwardStep := fun p _ => p, qlog := fun q => q
    trainIter := fun _ => [{ x := [()], y := [0] }], evalAcc := fun _ => 1
    p0 := (), epochs := 1 }

/-- Concrete loop configuration (instance reserved for the branch-dispatch
claim). -/
def cfgDispatch : LoopCfg Unit Unit :=
  { forward := fun _ _ => [1], backwardStep := fun p _ => p, qlog := fun q => q
    trainIter := fun _ => [{ x := [()], y := [0] }], evalAcc := fun _ => 1
    p0 := (), epochs := 1 }

theorem batchFold_samples {P X : Type} (c : LoopCfg P X) (m : Mode) :
    ∀ (bs : List (Batch X)) (a : BAcc P),
      (bs.foldl (batchStep c m) a).samples_sum
        = a.samples_sum + (bs.map fun b => b.x.length).sum := by
  intro bs
  induction bs with
  | nil => intro a; simp
  | cons b bs ih =>
    intro a
    simp only [List.foldl_cons, List.map_cons, List.sum_cons, ih, batchStep]
    omega

theorem batchFold_events {P X : Type} (c : LoopCfg P X) (m : Mode) :
    ∀ (bs : List (Batch X)) (a : BAcc P),
      (bs.foldl (batchStep c m) a).events = a.events ++ repeatEvs bs.length := by
  intro bs
  induction bs with
  | nil => intro a; simp [repeatEvs]
  | cons b bs ih =>
    intro a
    simp only [List.foldl_cons, List.length_cons, ih, batchStep, repeatEvs,
      List.append_assoc]

theorem batchFold_modes {P X : Type} (c : LoopCfg P X) (m : Mode) :
    ∀ (bs : List (Batch X)) (a : BAcc P),
      (bs.foldl (batchStep c m) a).batchModes
        = a.batchModes ++ List.replicate bs.length m := by
  intro bs
  induction bs with
  | nil => intro a; simp
  | cons b bs ih =>
    intro a
    simp only [List.foldl_cons, List.length_cons, ih, batchStep, List.replicate_succ,
      List.append_assoc, List.singleton_append]

theorem batchFold_loss {P X : Type} (c : LoopCfg P X) (m : Mode) :
    ∀ (bs : List (Batch X)) (a : BAcc P),
      (bs.foldl (batchStep c m) a).loss_sum
        = a.loss_sum + (((paramsTrace c a.params bs).zip bs).map
            (fun q => appliedLoss c q.1 q.2 * (q.2.x.length : ℚ))).sum := by
  intro bs
  induction bs with
  | nil => intro a; simp [paramsTrace]
  | cons b bs ih =>
    intro a
    simp only [List.foldl_cons, ih, batchStep, paramsTrace, List.zip_cons_cons,
      List.map_cons, List.sum_cons]
    ring

theorem batchFold_acc {P X : Type} (c : LoopCfg P X) (m : Mode) :
    ∀ (bs : List (Batch X)) (a : BAcc P),
      (bs.foldl (batchStep c m) a).acc_sum
        = a.acc_sum + (((paramsTrace c a.params bs).zip bs).map
            (fun q => calculate_accuracy (batchOutput c q.1 q.2) q.2.y * (q.2.x.length : ℚ))).sum := by
  intro bs
  induction bs with
  | nil => intro a; simp [paramsTrace]
  | cons b bs ih =>
    intro a
    simp only [List.foldl_cons, ih, batchStep, paramsTrace, List.zip_cons_cons,
      List.map_cons, List.sum_cons]
    ring

theorem runTrainPass_samples {P X : Type} (c : LoopCfg P X) (e : ℕ) (s : St P) :
    (runTrainPass c e s).samples_sum = ((c.trainIter e).map fun b => b.x.length).sum := by
  unfold runTrainPass
  rw [batchFold_samples]
  simp

theorem epochStep_err {P X : Type} (c : LoopCfg P X) (e : ℕ) (s : St P) :
    (epochStep c e s).err =
      if (runTrainPass c e s).samples_sum = 0 then some PyErr.zeroDivision else s.err := by
  by_cases h : (runTrainPass c e s).samples_sum = 0 <;> simp [epochStep, h]

theorem epochStep_best {P X : Type} (c : LoopCfg P X) (e : ℕ) (s : St P) :
    (epochStep c e s).best =
      if should_save (epochTestAcc c e s) s.best then epochTestAcc c e s else s.best := by
  by_cases h : (runTrainPass c e s).samples_sum = 0 <;> simp [epochStep, h]

theorem epochStep_saves {P X : Type} (c : LoopCfg P X) (e : ℕ) (s : St P) :
    (epochStep c e s).saves =
      s.saves ++ if should_save (epochTestAcc c e s) s.best then [e] else [] := by
  by_cases h : (runTrainPass c e s).samples_sum = 0 <;>
    by_cases h2 : should_save (epochTestAcc c e s) s.best <;>
    simp [epochStep, h, h2]

theorem epochStep_ok {P X : Type} (c : LoopCfg P X) (e : ℕ) (s : St P)
    (h : (epochStep c e s).err = none) :
    (epochStep c e s).log_testing_accuracy = s.log_testing_accuracy ++ [epochTestAcc c e s] ∧
    (epochStep c e s).log_training_loss = s.log_training_loss ++
      [(runTrainPass c e s).loss_sum / ((runTrainPass c e s).samples_sum : ℚ)] ∧
    (epochStep c e s).log_training_accuracy = s.log_training_accuracy ++
      [(runTrainPass c e s).acc_sum / ((runTrainPass c e s).samples_sum : ℚ)] ∧
    (epochStep c e s).best = max s.best (epochTestAcc c e s) := by
  by_cases hz : (runTrainPass c e s).samples_sum = 0
  · rw [epochStep_err, if_pos hz] at h
    exact absurd h (by simp)
  · refine ⟨?_, ?_, ?_, ?_⟩ <;> simp [epochStep, hz, should_save, max_def]

theorem epochStep_zero {P X : Type} (c : LoopCfg P X) (e : ℕ) (s : St P)
    (hz : (runTrainPass c e s).samples_sum = 0) :
    (epochStep c e s).err = some PyErr.zeroDivision ∧
    (epochStep c e s).log_testing_accuracy = s.log_testing_accuracy ∧
    (epochStep c e s).log_training_loss = s.log_training_loss ∧
    (epochStep c e s).log_training_accuracy = s.log_training_accuracy := by
  refine ⟨?_, ?_, ?_, ?_⟩ <;> simp [epochStep, hz]

theorem runEpochs_succ {P X : Type} (c : LoopCfg P X) (n e : ℕ) (s : St P) :
    runEpochs c (n + 1) e s =
      if (epochStep c e s).err = none then runEpochs c n (e + 1) (epochStep c e s)
      else epochStep c e s := by
  rw [runEpochs]

theorem runEpochs_len {P X : Type} (c : LoopCfg P X) :
    ∀ (n e : ℕ) (s : St P), (runEpochs c n e s).err = none →
      (runEpochs c n e s).log_testing_accuracy.length = s.log_testing_accuracy.length + n ∧
      (runEpochs c n e s).log_training_loss.length = s.log_training_loss.length + n ∧
      (runEpochs c n e s).log_training_accuracy.length = s.log_training_accuracy.length + n := by
  intro n
  induction n with
  | zero => intro e s _; simp [runEpochs]
  | succ n ih =>
    intro e s h
    by_cases hz : (epochStep c e s).err = none
    · rw [runEpochs_succ, if_pos hz] at h ⊢
      obtain ⟨h1, h2, h3⟩ := ih (e + 1) (epochStep c e s) h
      obtain ⟨g1, g2, g3, _⟩ := epochStep_ok c e s hz
      rw [h1, h2, h3, g1, g2, g3]
      simp only [List.length_append, List.length_singleton]
      omega
    · rw [runEpochs_succ, if_neg hz] at h
      exact absurd h hz

theorem runEpochs_best {P X : Type} (c : LoopCfg P X) :
    ∀ (n e : ℕ) (s : St P),
      s.best = s.log_testing_accuracy.foldl max 0 →
      (runEpochs c n e s).err = none →
      (runEpochs c n e s).best = (runEpochs c n e s).log_testing_accuracy.foldl max 0 := by
  intro n
  induction n with
  | zero => intro e s hs _; simpa [runEpochs] using hs
  | succ n ih =>
    intro e s hs h
    by_cases hz : (epochStep c e s).err = none
    · rw [runEpochs_succ, if_pos hz] at h ⊢
      refine ih (e + 1) (epochStep c e s) ?_ h
      obtain ⟨g1, _, _, g4⟩ := epochStep_ok c e s hz
      rw [g1, g4, hs, List.foldl_append, List.foldl_cons, List.foldl_nil]
    · rw [runEpochs_succ, if_neg hz] at h
      exact absurd h hz

theorem runEpochs_saves {P X : Type} (c : LoopCfg P X) :
    ∀ (n e : ℕ) (s : St P), ∃ t, (runEpochs c n e s).saves = s.saves ++ t := by
  intro n
  induction n with
  | zero => intro e s; exact ⟨[], by simp [runEpochs]⟩
  | succ n ih =>
    intro e s
    by_cases hz : (epochStep c e s).err = none
    · obtain ⟨t, ht⟩ := ih (e + 1) (epochStep c e s)
      refine ⟨(if should_save (epochTestAcc c e s) s.best then [e] else []) ++ t, ?_⟩
      rw [runEpochs_succ, if_pos hz, ht, epochStep_saves, List.append_assoc]
    · refine ⟨if should_save (epochTestAcc c e s) s.best then [e] else [], ?_⟩
      rw [runEpochs_succ, if_neg hz, epochStep_saves]

theorem runEpochs_err_eq {P X : Type} (c : LoopCfg P X) :
    ∀ (n e : ℕ) (s : St P), s.err = none →
      (runEpochs c n e s).err = errOf c n e := by
  intro n
  induction n with
  | zero => intro e s hs; simpa [runEpochs, errOf] using hs
  | succ n ih =>
    intro e s hs
    by_cases h0 : ((c.trainIter e).map fun b => b.x.length).sum = 0
    · have he : (epochStep c e s).err = some PyErr.zeroDivision := by
        rw [epochStep_err, runTrainPass_samples, if_pos h0]
      rw [runEpochs_succ, if_neg (by simp [he]), he, errOf, if_pos h0]
    · have he : (epochStep c e s).err = none := by
        rw [epochStep_err, runTrainPass_samples, if_neg h0, hs]
      rw [runEpochs_succ, if_pos he, errOf, if_neg h0]
      exact ih (e + 1) (epochStep c e s) he

theorem train_loop_err {P X : Type} (c : LoopCfg P X) :
    (train_loop c).err = errOf c c.epochs 1 :=
  runEpochs_err_eq c c.epochs 1 (initSt c) rfl

theorem errOf_congr {P X Q Y : Type} (c : LoopCfg P X) (c' : LoopCfg Q Y)
    (h : ∀ e, ((c.trainIter e).map fun b => b.x.length)
            = ((c'.trainIter e).map fun b => b.x.length)) :
    ∀ n e, errOf c n e = errOf c' n e := by
  intro n
  induction n with
  | zero => intro e; simp [errOf]
  | succ n ih =>
    intro e
    rw [errOf, errOf, h e]
    exact if_congr Iff.rfl rfl (ih (e + 1))

theorem mainAll_g2res {P X Q Y : Type} (c1 : LoopCfg P X) (c2 : LoopCfg Q Y) :
    (mainTrain c1 c2 "all").g2res =
      if (train_loop { c1 with epochs := EPOCHS_g1 }).err = none
      then some (train_loop { c2 with epochs := EPOCHS_g2 }) else none := by
  have h1 : ¬ (("all" : String) = "g1") := by decide
  have h2 : ¬ (("all" : String) = "g2") := by decide
  rw [mainTrain, if_neg h1, if_neg h2, if_pos rfl]
  by_cases h : (train_loop { c1 with epochs := EPOCHS_g1 }).err = none <;> simp [h]

theorem batchLossMean_mul (b : List Sample) :
    batchLossMean b * (b.length : ℚ) = (b.map Sample.lossv).sum := by
  cases b with
  | nil => simp [batchLossMean]
  | cons s t =>
    rw [batchLossMean, div_mul_cancel₀]
    exact Nat.cast_ne_zero.2 (by simp)

theorem batchAccuracy_mul (b : List Sample) :
    batchAccuracy b * (b.length : ℚ) = (batchCorrect b : ℚ) := by
  cases b with
  | nil => simp [batchAccuracy, batchCorrect]
  | cons s t =>
    rw [batchAccuracy, div_mul_cancel₀]
    exact Nat.cast_ne_zero.2 (by simp)

theorem batchCorrect_append (b1 b2 : List Sample) :
    batchCorrect (b1 ++ b2) = batchCorrect b1 + batchCorrect b2 := by
  simp [batchCorrect, List.filter_append]

theorem accumBatch_append (a : MAcc) (b1 b2 : List Sample) :
    accumBatch a (b1 ++ b2) = accumBatch (accumBatch a b1) b2 := by
  simp only [accumBatch, MAcc.mk.injEq]
  refine ⟨?_, ?_, ?_⟩
  · rw [batchLossMean_mul, batchLossMean_mul, batchLossMean_mul, List.map_append,
      List.sum_append, add_assoc]
  · rw [batchAccuracy_mul, batchAccuracy_mul, batchAccuracy_mul, batchCorrect_append,
      Nat.cast_add, add_assoc]
  · rw [List.length_append]
    omega

/-- C8: the per-epoch means produced from the weighted running sums are
invariant to batch partitioning: accumulating a batch of samples split into
two consecutive parts gives the same accumulator state, hence the same
finalized `(mean_loss, mean_accuracy)`, as accumulating the whole batch at
once (exactly, since the arithmetic is exact over `ℚ`). -/
theorem C8_partition_invariance (a : MAcc) (b1 b2 : List Sample) :
    accumBatch a (b1 ++ b2) = accumBatch (accumBatch a b1) b2 ∧
    finalize (accumBatch a (b1 ++ b2)) = finalize (accumBatch (accumBatch a b1) b2) := by
  refine ⟨accumBatch_append a b1 b2, ?_⟩
  rw [accumBatch_append]

/-- C1: the checkpoint-save decision of train.py line 42 returns true iff
the current test accuracy is at least the best score so far; a tie saves;
when the current accuracy is strictly below the best score the decision is
false and the epoch step changes neither the best score nor the list of
checkpoint writes. -/
theorem C1_checkpoint_policy {P X : Type} (c : LoopCfg P X) :
    (∀ x y : ℚ, should_save x y = true ↔ y ≤ x) ∧
    (∀ x : ℚ, should_save x x = true) ∧
    (∀ x y : ℚ, x < y → should_save x y = false) ∧
    (∀ (e : ℕ) (s : St P), epochTestAcc c e s < s.best →
      (epochStep c e s).best = s.best ∧ (epochStep c e s).saves = s.saves) := by
  refine ⟨?_, ?_, ?_, ?_⟩
  · intro x y; simp [should_save]
  · intro x; simp [should_save]
  · intro x y h; simp [should_save, not_le.2 h]
  · intro e s h
    have hf : should_save (epochTestAcc c e s) s.best = false := by
      simp [should_save, not_le.2 h]
    exact ⟨by simp [epochStep_best, hf], by simp [epochStep_saves, hf]⟩

/-- Witness for C1 at concrete inputs: a tie at score 1 saves, score 0
against best score 1 does not save, and the epoch step from best score 2
with test accuracy 1 leaves the best score and the save record unchanged. -/
theorem C1_checkpoint_policy_w :
    should_save (1 : ℚ) 1 = true ∧
    should_save (0 : ℚ) 1 = false ∧
    (epochStep cfgPolicy 1 { initSt cfgPolicy with best := 2 }).best = 2 ∧
    (epochStep cfgPolicy 1 { initSt cfgPolicy with best := 2 }).saves = [] := by
  obtain ⟨h1, h2, h3, h4⟩ := C1_checkpoint_policy (P := Unit) (X := Unit) cfgPolicy
  obtain ⟨g1, g2⟩ := h4 1 { initSt cfgPolicy with best := 2 } (by decide)
  exact ⟨h2 1, h3 0 1 (by norm_num), g1, g2⟩

/-- C2 counterexample: a run whose training stream is empty (one scheduled
epoch, test accuracy 1) aborts with the division-by-zero error, not with a
configuration error, and the checkpoint has already been written at epoch 1
before the error is raised. -/
theorem C2_cex :
    (train_loop cfgEmptyStream).err = some PyErr.zeroDivision ∧
    (train_loop cfgEmptyStream).err ≠ some PyErr.configurationError ∧
    (train_loop cfgEmptyStream).saves = [1] := by
  refine ⟨by decide, by decide, by decide⟩

/-- C2 amended: if the training stream of the first epoch is empty, the run
aborts with the `ZeroDivisionError` raised when the per-epoch means
`loss_sum / samples_sum` are formatted (train.py line 50), not with a
`ConfigurationError`; the abort happens after the checkpoint decision of
lines 42 to 45, so whenever the first test accuracy is nonnegative the
checkpoint file has already been written once when the error is raised, and
no per-epoch log entry is recorded. -/
theorem C2_empty_stream {P X : Type} (c : LoopCfg P X)
    (h1 : 1 ≤ c.epochs) (h2 : c.trainIter 1 = [])
    (h3 : 0 ≤ epochTestAcc c 1 (initSt c)) :
    (train_loop c).err = some PyErr.zeroDivision ∧
    (train_loop c).saves = [1] ∧
    (train_loop c).log_testing_accuracy = [] := by
  obtain ⟨n, hn⟩ : ∃ n, c.epochs = n + 1 := ⟨c.epochs - 1, by omega⟩
  have hz : (runTrainPass c 1 (initSt c)).samples_sum = 0 := by
    rw [runTrainPass_samples, h2]
    rfl
  have herr : (epochStep c 1 (initSt c)).err = some PyErr.zeroDivision :=
    (epochStep_zero c 1 (initSt c) hz).1
  have hloop : train_loop c = epochStep c 1 (initSt c) := by
    rw [train_loop, hn, runEpochs_succ, if_neg (by simp [herr])]
  have hsv : should_save (epochTestAcc c 1 (initSt c)) (initSt c).best = true := by
    simpa [should_save, initSt] using h3
  refine ⟨by rw [hloop]; exact herr, ?_, ?_⟩
  · rw [hloop, epochStep_saves, hsv]
    simp [initSt]
  · rw [hloop]
    exact (epochStep_zero c 1 (initSt c) hz).2.1

/-- Witness for C2 amended, at the concrete empty-stream configuration. -/
theorem C2_empty_stream_w :
    (train_loop cfgEmptyStream).err = some PyErr.zeroDivision ∧
    (train_loop cfgEmptyStream).saves = [1] ∧
    (train_loop cfgEmptyStream).log_testing_accuracy = [] :=
  C2_empty_stream cfgEmptyStream (by decide) rfl (by decide)

/-- C3 counterexample: at the invalid branch selection `g3`, `main` does not
raise at all (it prints and returns normally, train.py lines 122 to 124):
the propagated error is `none`, in particular not a `ConfigurationError`;
no model is constructed and no branch is trained. -/
theorem C3_cex :
    (mainTrain cfgDispatch cfgDispatch "g3").raised = none ∧
    (mainTrain cfgDispatch cfgDispatch "g3").raised ≠ some PyErr.configurationError ∧
    (mainTrain cfgDispatch cfgDispatch "g3").modelsConstructed = [] ∧
    (mainTrain cfgDispatch cfgDispatch "g3").g1res = none ∧
    (mainTrain cfgDispatch cfgDispatch "g3").g2res = none := by
  have h1 : ¬ (("g3" : String) = "g1") := by decide
  have h2 : ¬ (("g3" : String) = "g2") := by decide
  have h3 : ¬ (("g3" : String) = "all") := by decide
  rw [mainTrain, if_neg h1, if_neg h2, if_neg h3]
  refine ⟨rfl, by simp, rfl, rfl, rfl⟩

/-- C3 amended: if the branch selection is none of `g1`, `g2`, `all`, the run
fails fast before any model is constructed, trains nothing and writes no
checkpoint file; but it does so by printing a message and returning normally
(train.py lines 122 to 124), not by raising a `ConfigurationError`. -/
theorem C3_invalid_branch {P X Q Y : Type} (c1 : LoopCfg P X) (c2 : LoopCfg Q Y)
    (b : String) (h1 : b ≠ "g1") (h2 : b ≠ "g2") (h3 : b ≠ "all") :
    mainTrain c1 c2 b =
      { modelsConstructed := [], g1res := none, g2res := none, raised := none } := by
  rw [mainTrain, if_neg h1, if_neg h2, if_neg h3]

/-- Witness for C3 amended at the concrete invalid selection `g3`. -/
theorem C3_invalid_branch_w :
    mainTrain cfgDispatch cfgDispatch "g3" =
      { modelsConstructed := [], g1res := none, g2res := none, raised := none } :=
  C3_invalid_branch cfgDispatch cfgDispatch "g3" (by decide) (by decide) (by decide)

/-- Helper: `train_loop` at an overridden epoch budget, with the budget made
explicit in the error characterization. -/
theorem train_loop_err_epochs {P X : Type} (c : LoopCfg P X) (E : ℕ) :
    (train_loop { c with epochs := E }).err = errOf { c with epochs := E } E 1 :=
  train_loop_err _

/-- C4: a run that completes without error returns logs with exactly one
entry per scheduled epoch, and a zero epoch budget yields empty logs, no
checkpoint write and no error. -/
theorem C4_log_length {P X : Type} (c : LoopCfg P X) :
    ((train_loop c).err = none →
      (train_loop c).log_testing_accuracy.length = c.epochs ∧
      (train_loop c).log_training_loss.length = c.epochs ∧
      (train_loop c).log_training_accuracy.length = c.epochs) ∧
    (c.epochs = 0 →
      (train_loop c).log_testing_accuracy = [] ∧
      (train_loop c).log_training_loss = [] ∧
      (train_loop c).log_training_accuracy = [] ∧
      (train_loop c).saves = [] ∧
      (train_loop c).err = none) := by
  constructor
  · intro h
    rw [train_loop] at h ⊢
    obtain ⟨h1, h2, h3⟩ := runEpochs_len c c.epochs 1 (initSt c) h
    rw [h1, h2, h3]
    simp [initSt]
  · intro h0
    rw [train_loop, h0]
    simp [runEpochs, initSt]

/-- Witness for C4: the two-epoch run completes with a log of length 2, and
the zero-epoch run returns empty logs and no saves. -/
theorem C4_log_length_w :
    (train_loop cfgLogLen).log_testing_accuracy.length = 2 ∧
    (train_loop cfgZeroEpochs).log_testing_accuracy = [] ∧
    (train_loop cfgZeroEpochs).saves = [] := by
  refine ⟨((C4_log_length cfgLogLen).1 (by decide)).1, ?_, ?_⟩
  · exact ((C4_log_length cfgZeroEpochs).2 rfl).1
  · exact ((C4_log_length cfgZeroEpochs).2 rfl).2.2.2.1

/-- C5: within one run, the best score starts at the sentinel 0, each epoch
sets it to the test accuracy exactly when the save decision fires (it never
decreases), and a run that completes without error ends with the best score
equal to the fold of max over 0 and all logged test accuracies. -/
theorem C5_best_score {P X : Type} (c : LoopCfg P X) :
    (initSt c).best = 0 ∧
    (∀ (e : ℕ) (s : St P), (epochStep c e s).best =
        if should_save (epochTestAcc c e s) s.best then epochTestAcc c e s else s.best) ∧
    (∀ (e : ℕ) (s : St P), s.best ≤ (epochStep c e s).best) ∧
    ((train_loop c).err = none →
      (train_loop c).best = (train_loop c).log_testing_accuracy.foldl max 0) := by
  refine ⟨rfl, epochStep_best c, ?_, ?_⟩
  · intro e s
    rw [epochStep_best]
    by_cases h : should_save (epochTestAcc c e s) s.best = true
    · rw [if_pos h]
      simp only [should_save, decide_eq_true_eq] at h
      exact h
    · rw [if_neg h]
  · intro h
    rw [train_loop] at h ⊢
    exact runEpochs_best c c.epochs 1 (initSt c) (by simp [initSt]) h

/-- Witness for C5 at the concrete one-epoch run. -/
theorem C5_best_score_w :
    (train_loop cfgBest).best = (train_loop cfgBest).log_testing_accuracy.foldl max 0 :=
  (C5_best_score cfgBest).2.2.2 (by decide)

/-- C6 is refuted on the code: `model.train()` runs once before the epoch
loop (train.py line 18) while `evaluate` (modelled from the spec,
section 4.3 step 2: the evaluation pass places the model in evaluation mode)
leaves the model in evaluation mode, so in a two-epoch run the second
epoch's training batch executes while the model is still in evaluation mode:
the recorded per-batch mode trace of the completed run is `[train, eval]`
instead of the claimed `[train, train]`. -/
theorem C6_second_epoch_trains_in_eval_mode :
    (train_loop cfgTwoEpochs).batchModes = [Mode.train, Mode.eval] ∧
    (train_loop cfgTwoEpochs).err = none := by
  exact ⟨by decide, by decide⟩

/-- C7: over one epoch's training pass, every batch contributes exactly the
seven-operation block forward, elementwise log, NLL loss, zero_grad,
backward, optimizer step, metric accumulation, once per batch in iterator
order; the loss backpropagated for each batch is `appliedLoss` (the NLL
loss of the elementwise logarithm of the model output) at the parameters
reached before that batch; and the running sums receive exactly the
per-batch contributions (loss times batch size, accuracy times batch size,
batch size), in iterator order. -/
theorem C7_batch_protocol {P X : Type} (c : LoopCfg P X) (m : Mode)
    (bs : List (Batch X)) (a : BAcc P) :
    (bs.foldl (batchStep c m) a).events = a.events ++ repeatEvs bs.length ∧
    (bs.foldl (batchStep c m) a).loss_sum = a.loss_sum +
      (((paramsTrace c a.params bs).zip bs).map
        (fun q => appliedLoss c q.1 q.2 * (q.2.x.length : ℚ))).sum ∧
    (bs.foldl (batchStep c m) a).acc_sum = a.acc_sum +
      (((paramsTrace c a.params bs).zip bs).map
        (fun q => calculate_accuracy (batchOutput c q.1 q.2) q.2.y * (q.2.x.length : ℚ))).sum ∧
    (bs.foldl (batchStep c m) a).samples_sum
      = a.samples_sum + (bs.map fun b => b.x.length).sum :=
  ⟨batchFold_events c m bs a, batchFold_loss c m bs a, batchFold_acc c m bs a,
    batchFold_samples c m bs a⟩

set_option maxRecDepth 2000 in
/-- C9: under branch selection `all`, the g2 run is independent of g1's
evaluation accuracies: changing only the `evaluate` results of the g1 branch
leaves the entire g2 training-loop result, in particular its record of
checkpoint saves, unchanged; and the g2 run starts from its own initial
state with best score 0. -/
theorem C9_branch_independence {P X Q Y : Type} (c1 : LoopCfg P X)
    (a a' : P → ℚ) (c2 : LoopCfg Q Y) :
    (mainTrain { c1 with evalAcc := a } c2 "all").g2res
      = (mainTrain { c1 with evalAcc := a' } c2 "all").g2res ∧
    (initSt c2).best = 0 := by
  refine ⟨?_, rfl⟩
  rw [mainAll_g2res, mainAll_g2res, train_loop_err_epochs, train_loop_err_epochs]
  have h : errOf { { c1 with evalAcc := a } with epochs := EPOCHS_g1 } EPOCHS_g1 1
         = errOf { { c1 with evalAcc := a' } with epochs := EPOCHS_g1 } EPOCHS_g1 1 :=
    errOf_congr _ _ (fun _ => rfl) EPOCHS_g1 1
  rw [h]

/-- C10: a run with at least one scheduled epoch, whose first training
stream carries at least one sample, and whose first test accuracy is
nonnegative, always writes the checkpoint at epoch 1 (the best score starts
at 0 and the save comparison is non-strict), and the first epoch completes
without error. -/
theorem C10_first_epoch_saves {P X : Type} (c : LoopCfg P X)
    (h1 : 1 ≤ c.epochs)
    (h2 : ((c.trainIter 1).map fun b => b.x.length).sum ≠ 0)
    (h3 : 0 ≤ epochTestAcc c 1 (initSt c)) :
    (train_loop c).saves.head? = some 1 ∧
    (epochStep c 1 (initSt c)).err = none := by
  obtain ⟨n, hn⟩ : ∃ n, c.epochs = n + 1 := ⟨c.epochs - 1, by omega⟩
  have hz : (runTrainPass c 1 (initSt c)).samples_sum ≠ 0 := by
    rw [runTrainPass_samples]
    exact h2
  have herr : (epochStep c 1 (initSt c)).err = none := by
    rw [epochStep_err, if_neg hz]
    rfl
  have hsv : should_save (epochTestAcc c 1 (initSt c)) (initSt c).best = true := by
    simpa [should_save, initSt] using h3
  have hsaves : (epochStep c 1 (initSt c)).saves = [1] := by
    rw [epochStep_saves, hsv]
    simp [initSt]
  refine ⟨?_, herr⟩
  rw [train_loop, hn, runEpochs_succ, if_pos herr]
  obtain ⟨t, ht⟩ := runEpochs_saves c n 2 (epochStep c 1 (initSt c))
  rw [ht, hsaves]
  rfl

/-- Witness for C10 at the concrete one-epoch, one-batch run. -/
theorem C10_first_epoch_saves_w :
    (train_loop cfgFirstSave).saves.head? = some 1 ∧
    (epochStep cfgFirstSave 1 (initSt cfgFirstSave)).err = none :=
  C10_first_epoch_saves cfgFirstSave (by decide) (by decide) (by decide)
